import Mathlib

/-!
Shallow embedding of the ASL Citizen and How2Sign dataset loaders
(`sign_language_datasets/datasets/asl_citizen/asl_citizen.py` and
`sign_language_datasets/datasets/how2sign/how2sign.py`), together with
theorems settling the behavioural claims about manifest ingestion,
asset resolution and example generation.
-/

/-- A parsed manifest row: the list of string fields of one CSV line. -/
abbrev Row := List String

/-- Python truthiness of the optional `include_pose` configuration value:
`None` and the empty string are falsy, every other string is truthy. -/
def truthyStr : Option String → Bool
  | none => false
  | some s => decide (s ≠ "")

/-- Embeds the Python expression `row_val[1].replace('.mp4', '')` at the level
of character lists: every left-to-right, non-overlapping occurrence of the
four characters `.mp4` is removed, exactly as `str.replace` does. -/
def removeMp4 : List Char → List Char
  | '.' :: 'm' :: 'p' :: '4' :: cs => removeMp4 cs
  | c :: cs => c :: removeMp4 cs
  | [] => []

/-- Whether a character list contains an occurrence of `.mp4`. -/
def hasMp4 : List Char → Bool
  | '.' :: 'm' :: 'p' :: '4' :: _ => true
  | _ :: cs => hasMp4 cs
  | [] => false

/-- The video-code cleaning step of `_split_generators`:
`video_code = row_val[1].replace('.mp4', '')`. -/
def videoCode (s : String) : String := ⟨removeMp4 s.data⟩

/-- One loader record as assembled by `_split_generators` (the `datum`
dictionary) before the optional pose field is attached. -/
structure Datum where
  id : String
  video_code : String
  text : String
  signer_id : String
  asl_lex_code : String
deriving DecidableEq, Repr

/-- Builds the `datum` dictionary of `_split_generators` from a manifest row
with index `i`: `id = str(i)`, `video_code = row[1].replace('.mp4','')`,
`text = row[2]`, `signer_id = row[0]`, `asl_lex_code = row[3]`.
Fields are only read when the row has at least 4 columns. -/
def mkDatum (i : Nat) (row : Row) : Datum :=
  { id := toString i
    video_code := videoCode (row.getD 1 "")
    text := row.getD 2 ""
    signer_id := row.getD 0 ""
    asl_lex_code := row.getD 3 "" }

/-- The row loop of `_split_generators`, starting at row index `i`:
rows with at least 4 columns become records, shorter rows are skipped with a
printed diagnostic (modelled as the second component: the skipped
`(index, row)` pairs). -/
def processFrom (i : Nat) : List Row → List Datum × List (Nat × Row)
  | [] => ([], [])
  | row :: rest =>
    let r := processFrom (i + 1) rest
    if 4 ≤ row.length then (mkDatum i row :: r.1, r.2)
    else (r.1, (i, row) :: r.2)

/-- The full row loop of `_split_generators`
(`for i, row_val in enumerate(csv_data)` with index starting at 0). -/
def processRows (rows : List Row) : List Datum × List (Nat × Row) :=
  processFrom 0 rows

/-- Embeds `_load_csv_and_remove_header` applied to the sequence of rows the
CSV reader yields: `next(csv_reader)` raises `StopIteration` when the file is
completely empty (the reader yields no rows), and otherwise the header row is
discarded and the remaining rows are returned as a list. -/
def loadRowsSkipHeader : List Row → Except String (List Row)
  | [] => .error "StopIteration"
  | _ :: rest => .ok rest

/-- Embeds `_generate_examples`: for each prepared datum it yields the pair
`(datum["id"], datum)`, in list order. -/
def generateExamples (data : List Datum) : List (String × Datum) :=
  data.map (fun d => (d.id, d))

/-- Whether a path string starts with the separator `/`. -/
def startsWithSlash (s : String) : Bool := s.data.head? = some '/'

/-- Whether a path string ends with the separator `/`. -/
def endsWithSlash (s : String) : Bool := s.data.getLast? = some '/'

/-- Embeds `posixpath.join` for one extra component: an absolute component
replaces the accumulated path; otherwise the component is appended, inserting
a `/` unless the accumulated path is empty or already ends in `/`. -/
def join2 (a b : String) : String :=
  if startsWithSlash b = true then b
  else if a = "" ∨ endsWithSlash a = true then a ++ b
  else a ++ "/" ++ b

/-- The pose-path computation of `_split_generators`:
`path.join(poses_dir, 'poses', datum["video_code"] + '.pose')`. -/
def posePath (posesDir : String) (code : String) : String :=
  join2 (join2 posesDir "poses") (code ++ ".pose")

/-- Python evaluation of `pose_file.exists()` where `pose_file` is the `str`
returned by `os.path.join`: the `str` type has no attribute `exists`, so the
attribute access raises `AttributeError` regardless of the path value. -/
def strExistsCall (_ : String) : Except String Bool :=
  .error "AttributeError: str object has no attribute exists"

/-- The pose-attachment loop of `_split_generators`
(`datum["pose"] = pose_file if pose_file.exists() else None`): for each datum
the pose path is computed and `pose_file.exists()` is evaluated; the result
pairs each datum with its pose entry (`some value` means the key is present,
the inner `Option` is the path-or-`None` value). An exception anywhere
aborts the whole loop. -/
def attachPoses (posesDir : String) : List Datum → Except String (List (Datum × Option (Option String)))
  | [] => .ok []
  | d :: rest => do
    let pf := posePath posesDir d.video_code
    let b ← strExistsCall pf
    let rest2 ← attachPoses posesDir rest
    .ok ((d, some (if b then some pf else none)) :: rest2)

/-- The pose-archive key used by `_split_generators`: whenever
`include_pose` is truthy it downloads `_POSE_URLS['holistic']` — the literal
key `'holistic'` — independently of the configured modality name. -/
def splitPoseKey (includePose : Option String) : Option String :=
  if truthyStr includePose then some "holistic" else none

/-- The record-preparation part of `_split_generators` after the CSV rows are
loaded: the row loop, then (when `include_pose` is truthy) the pose-attachment
loop over the retained records with the extracted archive directory
`posesDir`. Returns the enriched records and the skipped-row diagnostics. -/
def aslPrepare (includePose : Option String) (posesDir : String) (csvRows : List Row) :
    Except String (List (Datum × Option (Option String)) × List (Nat × Row)) :=
  let p := processRows csvRows
  if truthyStr includePose then do
    let enriched ← attachPoses posesDir p.1
    .ok (enriched, p.2)
  else
    .ok (p.1.map (fun d => (d, none)), p.2)

/-- Dictionary lookup `d[k]` on a Python dict modelled as an association
list: a missing key raises `KeyError`. -/
def lookupStr (d : List (String × String)) (k : String) : Except String String :=
  match d.find? (fun p => p.1 = k) with
  | some p => .ok p.2
  | none => .error "KeyError"

/-- The `_POSE_HEADERS` table of the ASL Citizen module; the value is the
header file name (the directory prefix computed from `__file__` is not
relevant to any claim). -/
def aslPoseHeaders : List (String × String) := [("holistic", "holistic.poseheader")]

/-- The `_POSE_HEADERS` table of the How2Sign module. -/
def h2sPoseHeaders : List (String × String) := [("openpose", "openpose.header")]

/-- The stride computation of ASL Citizen `_info`:
`1 if fps is None else 30 / fps` (source frame rate 30). -/
def strideASL (fps : Option ℚ) : ℚ :=
  match fps with
  | none => 1
  | some f => 30 / f

/-- The stride computation of How2Sign `_info`:
`1 if fps is None else 24 / fps` (source frame rate 24). -/
def strideH2S (fps : Option ℚ) : ℚ :=
  match fps with
  | none => 1
  | some f => 24 / f

/-- The feature names always declared by ASL Citizen `_info`. -/
def aslBaseFeatures : List String := ["id", "video_code", "text", "signer_id", "asl_lex_code"]

/-- The schema declared by ASL Citizen `_info`, reduced to what the claims
are about: the list of feature names and the stride of the pose feature when
one is declared. -/
structure ASLSchema where
  featureNames : List String
  poseStride : Option ℚ
deriving DecidableEq

/-- Embeds ASL Citizen `_info`: the pose feature is added exactly when
`include_pose == "holistic"`, in which case the header path is looked up in
`_POSE_HEADERS` (a failing lookup would raise `KeyError`) and the stride is
computed from `fps`; every other configuration value yields the base schema. -/
def aslInfo (includePose : Option String) (fps : Option ℚ) : Except String ASLSchema :=
  if includePose = some "holistic" then
    match lookupStr aslPoseHeaders "holistic" with
    | .ok _ => .ok ⟨aslBaseFeatures ++ ["pose"], some (strideASL fps)⟩
    | .error e => .error e
  else
    .ok ⟨aslBaseFeatures, none⟩

/-- The schema declared by How2Sign `_info`, reduced to what the claims are
about: feature names, whether the video features are present, and the stride
of the front pose feature when one is declared. -/
structure H2SSchema where
  featureNames : List String
  hasVideo : Bool
  poseFrontStride : Option ℚ
deriving DecidableEq

/-- Embeds How2Sign `_info`: base features `id` and `fps`, video features
when `include_video` is set, and the pose feature exactly when
`include_pose == "openpose"` (with the `_POSE_HEADERS` lookup and the stride
computed from `fps`); any other modality value yields no pose feature. -/
def how2signInfo (includeVideo : Bool) (includePose : Option String) (fps : Option ℚ) :
    Except String H2SSchema :=
  let names := ["id", "fps"] ++ (if includeVideo then ["video"] else [])
  if includePose = some "openpose" then
    match lookupStr h2sPoseHeaders "openpose" with
    | .ok _ => .ok ⟨names ++ ["pose"], includeVideo, some (strideH2S fps)⟩
    | .error e => .error e
  else
    .ok ⟨names, includeVideo, none⟩

/-- A datum used to instantiate witnesses and counterexamples. -/
def demoDatum : Datum := ⟨"0", "clip0", "hello", "s0", "lex0"⟩

/-- The manifest rows of the three-row scenario: rows 0 and 2 have four
columns, row 1 has only two. -/
def demoRows : List Row :=
  [["s0", "clip0.mp4", "hello", "lex0"],
   ["s1", "clip1"],
   ["s2", "clip2.mp4", "world", "lex2"]]

/-- The claim side of C7, written from the claim text: strip one trailing
`.mp4` suffix and leave the identifier otherwise unchanged. -/
def stripMp4Suffix (s : String) : String :=
  if s.data.reverse.take 4 = ['4', 'p', 'm', '.'] then ⟨s.data.take (s.data.length - 4)⟩ else s

lemma removeMp4_of_not_has : ∀ l : List Char, hasMp4 l = false → removeMp4 l = l := by
  intro l
  induction l using removeMp4.induct with
  | case1 cs ih => intro h; simp [hasMp4] at h
  | case2 c cs h2 ih =>
    intro h
    rw [hasMp4.eq_2 c cs h2] at h
    rw [removeMp4.eq_2 c cs h2, ih h]
  | case3 => intro h; rfl

lemma removeMp4_append_suffix : ∀ l : List Char, hasMp4 l = false →
    removeMp4 (l ++ ['.', 'm', 'p', '4']) = l := by
  intro l
  induction l using removeMp4.induct with
  | case1 cs ih => intro h; simp [hasMp4] at h
  | case2 c cs h2 ih =>
    intro h
    rw [hasMp4.eq_2 c cs h2] at h
    have hside : ∀ cs1 : List Char, c = '.' →
        cs ++ ['.', 'm', 'p', '4'] = 'm' :: 'p' :: '4' :: cs1 → False := by
      intro cs1 hc he
      rcases cs with _ | ⟨a, _ | ⟨b, _ | ⟨d, cs'⟩⟩⟩
      · simp at he
      · simp at he
      · simp at he
      · simp at he
        obtain ⟨ha, hb, hd, _⟩ := he
        exact h2 cs' hc (by rw [ha, hb, hd])
    rw [List.cons_append, removeMp4.eq_2 c _ hside, ih h]
  | case3 => intro h; rfl

lemma processFrom_eq (rows : List Row) : ∀ i : Nat, processFrom i rows =
    (((rows.enumFrom i).filter (fun p => decide (4 ≤ p.2.length))).map (fun p => mkDatum p.1 p.2),
     (rows.enumFrom i).filter (fun p => decide (p.2.length < 4))) := by
  induction rows with
  | nil => intro i; rfl
  | cons row rest ih =>
    intro i
    by_cases h : 4 ≤ row.length
    · have h2 : ¬ row.length < 4 := by omega
      simp [processFrom, ih, List.enumFrom_cons, List.filter, h, h2]
    · have h2 : row.length < 4 := by omega
      simp [processFrom, ih, List.enumFrom_cons, List.filter, h, h2]

lemma filter_enumFrom_length (q : Row → Bool) (rows : List Row) : ∀ i : Nat,
    ((rows.enumFrom i).filter (fun p => q p.2)).length = (rows.filter q).length := by
  induction rows with
  | nil => intro i; rfl
  | cons row rest ih =>
    intro i
    by_cases h : q row
    · simp [List.enumFrom_cons, List.filter, h, ih]
    · simp [List.enumFrom_cons, List.filter, h, ih]

lemma attachPoses_cons (dir : String) (d : Datum) (rest : List Datum) :
    attachPoses dir (d :: rest) = .error "AttributeError: str object has no attribute exists" := rfl

/-- Claim C2: after the header row is discarded, the retained records are exactly
the data rows with at least 4 columns, in original order, and every shorter
row is excluded with a diagnostic recording its index and content. -/
theorem c2_retained_rows (rows : List Row) :
    (processRows rows).1.length = (rows.filter (fun r => decide (4 ≤ r.length))).length ∧
    (processRows rows).1 =
      ((rows.enumFrom 0).filter (fun p => decide (4 ≤ p.2.length))).map (fun p => mkDatum p.1 p.2) ∧
    (processRows rows).2 = (rows.enumFrom 0).filter (fun p => decide (p.2.length < 4)) := by
  refine ⟨?_, ?_, ?_⟩
  · simpa [processRows, processFrom_eq] using
      filter_enumFrom_length (fun r => decide (4 ≤ r.length)) rows 0
  · simp [processRows, processFrom_eq]
  · simp [processRows, processFrom_eq]

/-- Claim C3: identifiers of retained records are the decimal strings of their
original 0-based data-row indices; in the three-row scenario with a short
second row the two retained records have ids "0" and "2" and the diagnostic
names row 1. -/
theorem c3_identifiers :
    (∀ rows : List Row, (processRows rows).1.map Datum.id =
      ((rows.enumFrom 0).filter (fun p => decide (4 ≤ p.2.length))).map (fun p => toString p.1)) ∧
    (processRows demoRows).1.map Datum.id = ["0", "2"] ∧
    (processRows demoRows).1.length = 2 ∧
    (processRows demoRows).2.map Prod.fst = [1] := by
  refine ⟨?_, by decide, by decide, by decide⟩
  intro rows
  simp [processRows, processFrom_eq, mkDatum]

/-- Claim C6: re-running `_generate_examples` on the same prepared list yields the
same sequence; the sequence has exactly one pair per retained row, in order,
and the i-th pair is the i-th datum keyed by its id. -/
theorem c6_generate_restartable (data : List Datum) :
    generateExamples data = generateExamples data ∧
    (generateExamples data).length = data.length ∧
    ∀ i : Nat, (generateExamples data)[i]? = (data[i]?).map (fun d => (d.id, d)) := by
  refine ⟨rfl, by simp [generateExamples], ?_⟩
  intro i
  simp [generateExamples]

/-- Claim C10: on a completely empty manifest the header-skip step raises
(StopIteration) rather than returning an empty row list; with at least one
row it returns the remaining rows. -/
theorem c10_empty_manifest_raises :
    loadRowsSkipHeader ([] : List Row) = .error "StopIteration" ∧
    ∀ (r : Row) (rest : List Row), loadRowsSkipHeader (r :: rest) = .ok rest :=
  ⟨rfl, fun _ _ => rfl⟩

/-- Claim C1 (code bug): the claim says a missing pose file leads to an explicit null and no
exception; in the code `pose_file` is a `str`, so the existence check
`pose_file.exists()` raises `AttributeError` for every retained row, and the
whole pose-attachment step of `_split_generators` fails on any manifest with
at least one retained row. -/
theorem c1_pose_check_raises :
    (∀ (dir : String) (d : Datum) (rest : List Datum),
      attachPoses dir (d :: rest) = .error "AttributeError: str object has no attribute exists") ∧
    aslPrepare (some "holistic") "/dl" [["s0", "clip0.mp4", "hello", "lex0"]] =
      .error "AttributeError: str object has no attribute exists" :=
  ⟨attachPoses_cons, rfl⟩

lemma strData_append (a b : String) : (a ++ b).data = a.data ++ b.data := by
  cases a; cases b; rfl

lemma strExt {a b : String} (h : a.data = b.data) : a = b := by
  cases a; cases b; exact congrArg String.mk h

lemma startsWithSlash_append_pose (code : String) (h : startsWithSlash code = false) :
    startsWithSlash (code ++ ".pose") = false := by
  unfold startsWithSlash at *
  rw [strData_append]
  rcases hc : code.data with _ | ⟨c, cs⟩
  · decide
  · rw [hc] at h
    simpa using h

/-- Counterexample for C5: with an unsupported modality name, schema declaration
succeeds (no error is raised) for both loaders, merely omitting the pose
feature. -/
theorem c5_counterexample :
    aslInfo (some "openpose") none = .ok ⟨aslBaseFeatures, none⟩ ∧
    how2signInfo true (some "holistic") none = .ok ⟨["id", "fps", "video"], true, none⟩ := by
  constructor <;> rfl

/-- Claim C5 as amended: for every modality name outside each loader's supported set,
`_info` does not fail fast; it succeeds and silently omits the pose feature. -/
theorem c5_no_failfast (m : String) (fq : Option ℚ) (v : Bool)
    (hA : m ≠ "holistic") (hH : m ≠ "openpose") :
    aslInfo (some m) fq = .ok ⟨aslBaseFeatures, none⟩ ∧
    how2signInfo v (some m) fq = .ok ⟨["id", "fps"] ++ (if v then ["video"] else []), v, none⟩ := by
  constructor
  · simp [aslInfo, hA]
  · simp [how2signInfo, hH]

/-- Witness for C5 at the unsupported modality name "other". -/
theorem c5_no_failfast_witness :
    aslInfo (some "other") none = .ok ⟨aslBaseFeatures, none⟩ ∧
    how2signInfo true (some "other") none =
      .ok ⟨["id", "fps"] ++ (if true then ["video"] else []), true, none⟩ :=
  c5_no_failfast "other" none true (by decide) (by decide)

/-- Counterexample for C7: the cleaning step removes every occurrence of ".mp4",
so a clip identifier containing ".mp4" other than as a suffix is altered
elsewhere, contrary to the claim. -/
theorem c7_counterexample :
    videoCode "a.mp4b.mp4" = "ab" ∧
    stripMp4Suffix "a.mp4b.mp4" = "a.mp4b" ∧
    videoCode "a.mp4b.mp4" ≠ stripMp4Suffix "a.mp4b.mp4" :=
  ⟨by decide, by decide, by decide⟩

/-- Claim C7 as amended: the cleaning step removes every occurrence of ".mp4"; in
particular an identifier with no occurrence is unchanged and one whose only
occurrence is a trailing suffix has that suffix stripped. -/
theorem c7_all_occurrences (s : String) (h : hasMp4 s.data = false) :
    videoCode s = s ∧ videoCode ⟨s.data ++ ['.', 'm', 'p', '4']⟩ = s := by
  constructor
  · show (⟨removeMp4 s.data⟩ : String) = s
    rw [removeMp4_of_not_has s.data h]
  · show (⟨removeMp4 (s.data ++ ['.', 'm', 'p', '4'])⟩ : String) = s
    rw [removeMp4_append_suffix s.data h]

/-- Witness for C7 at the identifier "abc". -/
theorem c7_all_occurrences_witness :
    hasMp4 "abc".data = false ∧
    (videoCode "abc" = "abc" ∧ videoCode ⟨"abc".data ++ ['.', 'm', 'p', '4']⟩ = "abc") :=
  ⟨by decide, c7_all_occurrences "abc" (by decide)⟩

lemma data_slash : ("/" : String).data = ['/'] := rfl

lemma data_poses : ("poses" : String).data = ['p', 'o', 's', 'e', 's'] := rfl

lemma data_poses2 : ("/poses/" : String).data = ['/', 'p', 'o', 's', 'e', 's', '/'] := rfl

lemma data_pose_ext : (".pose" : String).data = ['.', 'p', 'o', 's', 'e'] := rfl

/-- Claim C8: for every retained row, the resolved pose path is the pose download
root joined with the directory "poses" and the cleaned clip identifier
carrying the ".pose" extension (for a root that is a plain directory path and
an identifier that is not an absolute path). -/
theorem c8_pose_path (dir code : String) (h1 : dir ≠ "")
    (h2 : endsWithSlash dir = false) (h3 : startsWithSlash code = false) :
    posePath dir code = dir ++ "/poses/" ++ code ++ ".pose" := by
  have hjoin1 : join2 dir "poses" = dir ++ "/" ++ "poses" := by
    unfold join2
    rw [if_neg (by decide), if_neg]
    rintro (he | he)
    · exact h1 he
    · rw [h2] at he
      exact Bool.false_ne_true he
  have hne : (dir ++ "/" ++ "poses").data ≠ [] := by
    rw [strData_append, strData_append]
    simp [data_poses]
  unfold posePath
  rw [hjoin1]
  unfold join2
  rw [if_neg, if_neg]
  · apply strExt
    simp only [strData_append, data_slash, data_poses, data_poses2, data_pose_ext,
      List.append_assoc, List.cons_append, List.nil_append]
  · rintro (he | he)
    · exact hne (by rw [he])
    · apply absurd he
      unfold endsWithSlash
      rw [strData_append, strData_append, List.getLast?_append_of_ne_nil _ (by simp [data_poses]),
        data_poses]
      decide
  · rw [startsWithSlash_append_pose code h3]
    decide

/-- Witness for C8 at the download root "/dl" and clip identifier "clip1". -/
theorem c8_pose_path_witness :
    posePath "/dl" "clip1" = "/dl" ++ "/poses/" ++ "clip1" ++ ".pose" ∧
    posePath "/dl" "clip1" = "/dl/poses/clip1.pose" :=
  ⟨c8_pose_path "/dl" "clip1" (by decide) (by decide) (by decide), by decide⟩

/-- Counterexample for C9: with `include_pose = "openpose"` the split step still
selects the holistic archive and the declared schema has no pose feature, but
the attachment loop raises on the first record instead of attaching a pose
field to every record, so the claim as stated fails on a one-row manifest. -/
theorem c9_counterexample :
    splitPoseKey (some "openpose") = some "holistic" ∧
    aslInfo (some "openpose") none = .ok ⟨aslBaseFeatures, none⟩ ∧
    aslPrepare (some "openpose") "/dl" [["s0", "clip0.mp4", "hello", "lex0"]] =
      .error "AttributeError: str object has no attribute exists" :=
  ⟨rfl, rfl, rfl⟩

/-- Claim C9 as amended: for every truthy modality other than "holistic", the split
step still resolves the holistic archive while the schema has no pose
feature, and the pose-attachment loop raises at the first retained record
rather than attaching a pose field to each. -/
theorem c9_schema_record_divergence (m : String) (hT : truthyStr (some m) = true)
    (hne : m ≠ "holistic") :
    splitPoseKey (some m) = some "holistic" ∧
    (∀ fq : Option ℚ, aslInfo (some m) fq = .ok ⟨aslBaseFeatures, none⟩) ∧
    (∀ (dir : String) (d : Datum) (rest : List Datum),
      attachPoses dir (d :: rest) = .error "AttributeError: str object has no attribute exists") := by
  refine ⟨?_, ?_, ?_⟩
  · simp [splitPoseKey, hT]
  · intro fq
    simp [aslInfo, hne]
  · intro dir d rest
    exact attachPoses_cons dir d rest

/-- Witness for C9 at the modality "openpose" and a one-element record list. -/
theorem c9_schema_record_divergence_witness :
    splitPoseKey (some "openpose") = some "holistic" ∧
    aslInfo (some "openpose") none = .ok ⟨aslBaseFeatures, none⟩ ∧
    attachPoses "/dl" [demoDatum] = .error "AttributeError: str object has no attribute exists" := by
  have h := c9_schema_record_divergence "openpose" (by decide) (by decide)
  exact ⟨h.1, h.2.1 none, h.2.2 "/dl" demoDatum []⟩

/-- Claim C4: with `fps = None` the stride is 1 for both loaders; requesting
half the source rate (15 of 30 for ASL Citizen, 12 of 24 for How2Sign) gives
stride 2; in general the stride times the requested rate equals the source
rate. -/
theorem c4_stride (f : ℚ) (hf : f ≠ 0) :
    strideASL none = 1 ∧ strideH2S none = 1 ∧
    strideASL (some 15) = 2 ∧ strideH2S (some 12) = 2 ∧
    strideASL (some f) * f = 30 ∧ strideH2S (some f) * f = 24 := by
  refine ⟨rfl, rfl, by norm_num [strideASL], by norm_num [strideH2S], ?_, ?_⟩
  · simp [strideASL]
    field_simp
  · simp [strideH2S]
    field_simp

/-- Witness for C4 at the concrete request of 15 frames per second. -/
theorem c4_stride_witness :
    strideASL none = 1 ∧ strideH2S none = 1 ∧
    strideASL (some 15) = 2 ∧ strideH2S (some 12) = 2 ∧
    strideASL (some 15) * 15 = 30 ∧ strideH2S (some 15) * 15 = 24 :=
  c4_stride 15 (by norm_num)
